import Mathlib

/-!
Verification of the image-thumbnail service against its specification.

The development shallowly embeds the two source files of the repository:

* `main.py` — the Flask CloudEvent handler `handle_event` with its
  in-memory idempotency store (`_idempotency_store` guarded by
  `_idempotency_lock`), plus the payload field extractor `_extract_field`.
* `process.py` — the batch worker `process` with its chunking arithmetic,
  the per-item download/thumbnail/upload loop, and the helpers
  `infer_format_from_ext`, `looks_like_image`, `list_gs_objects`,
  `parse_gs_path`, and the Pillow `Image.thumbnail` size computation used
  by `create_thumbnail_bytes`.

External collaborators (the blob store, the CloudEvent transport, Pillow
encode/decode success) are modelled as explicit environments of functions;
the control flow, string formats, record shapes and arithmetic are
translated directly from the source.
-/

namespace ImgProc

/-- A Python scalar value as it appears in CloudEvent payload fields.
`PyVal.none` is Python `None` (`getattr` default / absent attribute). -/
inductive PyVal where
  | none : PyVal
  | str : String → PyVal
  | int : Int → PyVal
deriving DecidableEq, Repr

/-- Python truthiness for the values above (`if not bucket_name` etc.):
`None`, `""` and `0` are falsy. -/
def pyTruthy : PyVal → Bool
  | .none => false
  | .str s => s ≠ ""
  | .int n => n ≠ 0

/-- Python `str(...)` rendering used in the f-strings of `main.py`. -/
def pyToString : PyVal → String
  | .none => "None"
  | .str s => s
  | .int n => toString n

/-- A CloudEvent `data` object: it may be a mapping (`isDict` with
`dict k = some v` iff `k in data`, where `v` may itself be Python `None`)
and it always answers `getattr(data, k, None)` via `attr`. -/
structure Payload where
  isDict : Bool
  dict : String → Option PyVal
  attr : String → PyVal

/-- `_extract_field(data, *keys)` from `main.py`: for each key in order,
return `data[key]` when `data` is a mapping containing the key (even when
the stored value is `None`), otherwise return `getattr(data, key, None)`
when that is not `None`; fall through to the next key, ending in `None`. -/
def extract_field (data : Payload) : List String → PyVal
  | [] => PyVal.none
  | k :: rest =>
    match data.isDict, data.dict k with
    | true, some v => v
    | _, _ =>
      match data.attr k with
      | .none => extract_field data rest
      | v => v

/-- Split a character list at every occurrence of a separator, the
semantics of Python `s.split(sep)` for a one-character separator. -/
def splitOnChar (sep : Char) : List Char → List (List Char)
  | [] => [[]]
  | c :: rest =>
    match splitOnChar sep rest with
    | [] => if c = sep then [[], []] else [[c]]
    | h :: t => if c = sep then [] :: h :: t else (c :: h) :: t

/-- ASCII lowercasing of one character, the effect of Python
`str.lower()` on the ASCII strings these programs compare. -/
def lowerChar (c : Char) : Char :=
  if 65 ≤ c.toNat ∧ c.toNat ≤ 90 then Char.ofNat (c.toNat + 32) else c

/-- Python `str.lower()` (ASCII range). -/
def strToLower (s : String) : String := String.mk (s.toList.map lowerChar)

/-- `os.path.splitext(...)[1]` restricted to what the sources need: the
extension of the final path component, where leading dots of the basename
do not start an extension. -/
def splitextExt (path : String) : String :=
  let base := (splitOnChar '/' path.toList).getLastD []
  let stripped := base.dropWhile (fun c => c = '.')
  if stripped.contains '.' then
    String.mk ('.' :: ((base.reverse.takeWhile (fun c => c ≠ '.')).reverse))
  else ""

/-- `infer_format_from_ext` from `process.py`. -/
def infer_format_from_ext (filename : String) : String :=
  let ext := strToLower (splitextExt filename)
  if ext = ".jpg" then "JPEG"
  else if ext = ".jpeg" then "JPEG"
  else if ext = ".png" then "PNG"
  else if ext = ".gif" then "GIF"
  else if ext = ".bmp" then "BMP"
  else if ext = ".tiff" then "TIFF"
  else if ext = ".tif" then "TIFF"
  else if ext = ".webp" then "WEBP"
  else "PNG"

/-- `os.path.basename`, and the `object_name.split("/")[-1]` idiom of
`main.py` line 305 (identical for the names that occur). -/
def basename (s : String) : String :=
  String.mk ((splitOnChar '/' s.toList).getLastD [])

/-- Opaque stand-in for a byte string; only the environment functions
inspect it. -/
abbrev Bytes := Nat

instance {ε α : Type} [DecidableEq ε] [DecidableEq α] : DecidableEq (Except ε α) := by
  intro a b
  cases a <;> cases b
  case error.error x y =>
    exact if h : x = y then .isTrue (by rw [h]) else .isFalse (fun hc => h (Except.error.inj hc))
  case error.ok x y => exact .isFalse (fun hc => Except.noConfusion hc)
  case ok.error x y => exact .isFalse (fun hc => Except.noConfusion hc)
  case ok.ok x y =>
    exact if h : x = y then .isTrue (by rw [h]) else .isFalse (fun hc => h (Except.ok.inj hc))

/-- Status values written into `_idempotency_store` by `main.py`. -/
inductive Status where
  | processing : Status
  | completed : Status
  | failed : Status
deriving DecidableEq, Repr

/-- One `_idempotency_store` entry: the dict
`\x7b"status", "dest_blob", "uploaded_at", "error"\x7d` of `main.py`, with
absent keys as `none`. -/
structure IdemRecord where
  status : Status
  dest_blob : Option String
  uploaded_at : Option String
  error : Option String
deriving DecidableEq, Repr

/-- The in-memory idempotency store `_idempotency_store`. -/
def Store : Type := String → Option IdemRecord

/-- Dict assignment `_idempotency_store[key] = rec`. -/
def Store.update (s : Store) (k : String) (r : IdemRecord) : Store :=
  fun k' => if k' = k then some r else s k'

/-- The empty store (fresh process). -/
def emptyStore : Store := fun _ => none

/-- One observable side effect on the blob store or the image pipeline,
in the order the call performs them. `thumb` is one
`create_thumbnail_bytes` attempt with the given output format; `openCheck`
is the bare `Image.open` validation of the source bytes. -/
inductive Eff where
  | download : String → String → Eff
  | thumb : String → Eff
  | openCheck : Eff
  | upload : String → String → Eff
deriving DecidableEq, Repr

/-- External collaborators of `handle_event`: blob-store download/upload,
the two Pillow entry points, `mimetypes.guess_type`, and the two clock
reads (`_utc_timestamp_folder` and `datetime.now().isoformat`). Each
fallible call returns `Except` with the exception text. -/
structure Env where
  download : String → String → Except String Bytes
  create_thumbnail : Bytes → String → Except String Bytes
  image_open : Bytes → Except String Unit
  upload : String → String → Bytes → String → Except String Unit
  guess_mime : String → Option String
  ts_folder : String
  now_iso : String

/-- The JSON responses of `handle_event`, one constructor per `return`. -/
inductive HResp where
  | invalidEvent : String → HResp
  | missingFields : List String → HResp
  | alreadyProcessed : String → Option String → Option String → HResp
  | processingResp : String → HResp
  | cachedFailed : String → Option String → HResp
  | downloadFailed : String → HResp
  | invalidImage : String → HResp
  | thumbnailFailed : String → HResp
  | uploadFailed : String → HResp
  | ok : String → String → HResp
deriving DecidableEq, Repr

/-- HTTP status code attached to each response in `main.py`. -/
def httpStatus : HResp → Nat
  | .invalidEvent _ => 400
  | .missingFields _ => 400
  | .alreadyProcessed _ _ _ => 200
  | .processingResp _ => 409
  | .cachedFailed _ _ => 500
  | .downloadFailed _ => 500
  | .invalidImage _ => 400
  | .thumbnailFailed _ => 500
  | .uploadFailed _ => 500
  | .ok _ _ => 200

/-- Result of one `handle_event` call: the response, the final store, the
store contents observed at each release of `_idempotency_lock` (in order),
and the trace of external effects. -/
structure HEOut where
  resp : HResp
  store : Store
  states : List Store
  trace : List Eff

/-- Record written when a key is first claimed (`\x7b"status": "processing"\x7d`). -/
def procRecord : IdemRecord := ⟨.processing, none, none, none⟩

/-- Record written by the failure paths. -/
def failRecord (e : String) : IdemRecord := ⟨.failed, none, none, some e⟩

/-- Record written on success. -/
def doneRecord (path iso : String) : IdemRecord := ⟨.completed, some path, some iso, none⟩

/-- Upload stage of `handle_event` (`main.py` lines 304–342): compute the
timestamp folder, the basename, the `resized` destination and the content
type, upload, then write the terminal record. `s1` is the store after the
claim. -/
def he_finish (env : Env) (s1 : Store) (key bucketS objectS fmt : String)
    (tb : Bytes) (tr : List Eff) : HEOut :=
  let base := basename objectS
  let dest := env.ts_folder ++ "/resized/" ++ base
  let ctype := (env.guess_mime base).getD ("image/" ++ strToLower fmt)
  match env.upload bucketS dest tb ctype with
  | .error e =>
    let s2 := s1.update key (failRecord ("upload_error: " ++ e))
    ⟨.uploadFailed e, s2, [s1, s2], tr ++ [.upload bucketS dest]⟩
  | .ok _ =>
    let path := "gs://" ++ bucketS ++ "/" ++ dest
    let s2 := s1.update key (doneRecord path env.now_iso)
    ⟨.ok key path, s2, [s1, s2], tr ++ [.upload bucketS dest]⟩

/-- Thumbnail stage of `handle_event` (`main.py` lines 272–302): try the
inferred format; on failure validate the bytes with `Image.open`
(`invalid_image` when that fails) and retry once forcing PNG
(`thumbnail_error` when the retry fails). -/
def he_thumb (env : Env) (s1 : Store) (key bucketS objectS : String)
    (bytes : Bytes) (tr : List Eff) : HEOut :=
  let fmt0 := infer_format_from_ext objectS
  match env.create_thumbnail bytes fmt0 with
  | .ok tb => he_finish env s1 key bucketS objectS fmt0 tb (tr ++ [.thumb fmt0])
  | .error _ =>
    match env.image_open bytes with
    | .error e =>
      let s2 := s1.update key (failRecord ("invalid_image: " ++ e))
      ⟨.invalidImage e, s2, [s1, s2], tr ++ [.thumb fmt0, .openCheck]⟩
    | .ok _ =>
      match env.create_thumbnail bytes "PNG" with
      | .error e =>
        let s2 := s1.update key (failRecord ("thumbnail_error: " ++ e))
        ⟨.thumbnailFailed e, s2, [s1, s2], tr ++ [.thumb fmt0, .openCheck, .thumb "PNG"]⟩
      | .ok tb =>
        he_finish env s1 key bucketS objectS "PNG" tb
          (tr ++ [.thumb fmt0, .openCheck, .thumb "PNG"])

/-- Claimed path of `handle_event` (`main.py` lines 255–342): the key has
just been claimed into status processing; download, then run the
thumbnail/upload stages. -/
def he_claimed (env : Env) (store : Store) (key bucketS objectS : String) : HEOut :=
  let s1 := store.update key procRecord
  match env.download bucketS objectS with
  | .error e =>
    let s2 := s1.update key (failRecord ("download_error: " ++ e))
    ⟨.downloadFailed e, s2, [s1, s2], [.download bucketS objectS]⟩
  | .ok bytes => he_thumb env s1 key bucketS objectS bytes [.download bucketS objectS]

/-- The `/event` handler `handle_event` of `main.py`: CloudEvent parse,
field extraction, idempotency check under the lock, then the claimed
path. `ev` is the result of `from_http` on the request. -/
def handle_event (env : Env) (ev : Except String Payload) (store : Store) : HEOut :=
  match ev with
  | .error e => ⟨.invalidEvent e, store, [], []⟩
  | .ok data =>
    let bucket := extract_field data ["bucket"]
    let object := extract_field data ["file_name", "name"]
    let gen := extract_field data ["generation"]
    if ¬ pyTruthy bucket ∨ ¬ pyTruthy object ∨ gen = PyVal.none then
      ⟨.missingFields ["bucket", "file_name or name", "generation"], store, [], []⟩
    else
      let bucketS := pyToString bucket
      let objectS := pyToString object
      let key := bucketS ++ "/" ++ objectS ++ "@" ++ pyToString gen
      match store key with
      | some r =>
        match r.status with
        | .completed => ⟨.alreadyProcessed key r.dest_blob r.uploaded_at, store, [store], []⟩
        | .processing => ⟨.processingResp key, store, [store], []⟩
        | .failed => ⟨.cachedFailed key r.error, store, [store], []⟩
      | none => he_claimed env store key bucketS objectS

/-- Idempotency key `"<bucket>/<object_name>@<generation>"` computed by
`handle_event` for a decoded payload. -/
def eventKey (data : Payload) : String :=
  pyToString (extract_field data ["bucket"]) ++ "/" ++
    pyToString (extract_field data ["file_name", "name"]) ++ "@" ++
    pyToString (extract_field data ["generation"])

/-- Bucket string used by `handle_event` for a decoded payload. -/
def eventBucket (data : Payload) : String := pyToString (extract_field data ["bucket"])

/-- Object-name string used by `handle_event` for a decoded payload. -/
def eventObject (data : Payload) : String :=
  pyToString (extract_field data ["file_name", "name"])

/-! ## Batch worker (`process.py`) -/

/-- `is_gs_path` from `process.py`. -/
def is_gs_path (path : String) : Bool := "gs://".toList.isPrefixOf path.toList

/-- `parse_gs_path` from `process.py`: drop the `gs://` scheme, split at
the first slash (`split("/", 1)`), and strip trailing slashes from the
remainder. Callers check `is_gs_path` first, so the error branch is not
reached. -/
def parse_gs_path (gs_path : String) : String × String :=
  let without := gs_path.toList.drop 5
  let bucket := without.takeWhile (fun c => c ≠ '/')
  let rest := without.dropWhile (fun c => c ≠ '/')
  match rest with
  | [] => (String.mk bucket, "")
  | _ :: tail =>
    (String.mk bucket, String.mk ((tail.reverse.dropWhile (fun c => c = '/')).reverse))

/-- Code-point comparison of character lists, the semantics of Python
string `<`. -/
def charsLt : List Char → List Char → Bool
  | [], [] => false
  | [], _ :: _ => true
  | _ :: _, [] => false
  | a :: as, b :: bs =>
    if a.toNat < b.toNat then true
    else if b.toNat < a.toNat then false
    else charsLt as bs

/-- Python `a < b` on strings. -/
def strLt (a b : String) : Bool := charsLt a.toList b.toList

/-- Python `≤` on the `(blob_name, content_type)` tuples sorted by
`results.sort()` in `list_gs_objects`. -/
def pairLe (a b : String × String) : Bool :=
  strLt a.1 b.1 || (a.1 == b.1 && (strLt a.2 b.2 || a.2 == b.2))

/-- Stable insertion of one tuple into a sorted list (equal keys keep
their original relative order, as Python sort is stable). -/
def insSorted (a : String × String) : List (String × String) → List (String × String)
  | [] => [a]
  | b :: l => if pairLe b a then b :: insSorted a l else a :: b :: l

/-- Stable sort of the listing, the `results.sort()` call. -/
def sortPairs : List (String × String) → List (String × String)
  | [] => []
  | a :: l => insSorted a (sortPairs l)

/-- `list_gs_objects` from `process.py`, applied to the raw listing the
store returns for the prefix: drop directory placeholders (name ending in
`/`), replace a missing content type by `""`, and sort. -/
def list_gs_objects (raw : List (String × Option String)) : List (String × String) :=
  sortPairs ((raw.filter
    (fun b => ¬ b.1.toList.getLastD ' ' = '/')).map (fun b => (b.1, b.2.getD "")))

/-- The extension set `_IMAGE_EXTS` of `process.py`. -/
def imageExts : List String :=
  [".jpg", ".jpeg", ".png", ".gif", ".bmp", ".tiff", ".tif", ".webp"]

/-- `looks_like_image` from `process.py`. -/
def looks_like_image (filename : String) (content_type : String) : Bool :=
  if content_type ≠ "" && "image/".toList.isPrefixOf content_type.toList then true
  else imageExts.contains (strToLower (splitextExt filename))

/-- `chunk_size = math.ceil(total / TASK_COUNT)` from `process.py` line
202, rendered as exact ceiling division on naturals (the float division is
exact at all realistic magnitudes). -/
def chunk_size (total task_count : Nat) : Nat := (total + task_count - 1) / task_count

/-- `chunk_start = chunk_size * TASK_INDEX` from `process.py` line 203. -/
def chunk_start (total task_count task_index : Nat) : Nat :=
  chunk_size total task_count * task_index

/-- `chunk_end = min(chunk_start + chunk_size, total)` from `process.py`
line 204. -/
def chunk_end (total task_count task_index : Nat) : Nat :=
  min (chunk_start total task_count task_index + chunk_size total task_count) total

/-- External collaborators of the batch worker: download by blob name,
the two Pillow entry points, upload by destination name, the mime table,
and the single run timestamp computed at `process.py` line 219. -/
structure BEnv where
  download : String → String → Except String Bytes
  create_thumbnail : Bytes → String → Except String Bytes
  image_open : Bytes → Except String Unit
  upload : String → String → Bytes → String → Except String Unit
  guess_mime : String → Option String
  ts : String

/-- Upload step of the batch loop (`process.py` lines 240–254): the
destination is `<timestamp>/<filename>` with no extra segment. Returns
whether the item counted as processed, with its effect trace suffix. -/
def batch_upload (env : BEnv) (bucket filename fmt : String) (tb : Bytes)
    (tr : List Eff) : Bool × List Eff :=
  let dest := env.ts ++ "/" ++ filename
  let ctype := (env.guess_mime filename).getD ("image/" ++ strToLower fmt)
  match env.upload bucket dest tb ctype with
  | .error _ => (false, tr ++ [.upload bucket dest])
  | .ok _ => (true, tr ++ [.upload bucket dest])

/-- One iteration of the batch `for` loop (`process.py` lines 223–261):
download, thumbnail with inferred-format/PNG fallback, upload. Every
exception propagates to the per-item `except` which counts the item as an
error; the result is `(processed?, effects)`. -/
def process_item (env : BEnv) (bucket : String) (item : String × String) : Bool × List Eff :=
  match env.download bucket item.1 with
  | .error _ => (false, [.download bucket item.1])
  | .ok bytes =>
    let dl := Eff.download bucket item.1
    let fmt0 := infer_format_from_ext item.2
    match env.create_thumbnail bytes fmt0 with
    | .ok tb => batch_upload env bucket item.2 fmt0 tb [dl, .thumb fmt0]
    | .error _ =>
      match env.image_open bytes with
      | .error _ => (false, [dl, .thumb fmt0, .openCheck])
      | .ok _ =>
        match env.create_thumbnail bytes "PNG" with
        | .error _ => (false, [dl, .thumb fmt0, .openCheck, .thumb "PNG"])
        | .ok tb =>
          batch_upload env bucket item.2 "PNG" tb [dl, .thumb fmt0, .openCheck, .thumb "PNG"]

/-- The batch `for` loop over the assigned slice: returns
`(processed, errors, effects)` — the two counters of the final summary
line and the effect trace in order. -/
def process_items (env : BEnv) (bucket : String) :
    List (String × String) → Nat × Nat × List Eff
  | [] => (0, 0, [])
  | it :: rest =>
    let r := process_item env bucket it
    let acc := process_items env bucket rest
    ((if r.1 then 1 else 0) + acc.1, (if r.1 then 0 else 1) + acc.2.1, r.2 ++ acc.2.2)

/-- Configuration of the batch worker: `INPUT_FOLDER`,
`CLOUD_RUN_TASK_INDEX`, `CLOUD_RUN_TASK_COUNT`. -/
structure BConfig where
  input_folder : Option String
  task_index : Int
  task_count : Int

/-- Outcome of a batch run: either a configuration error (`sys.exit(2)`
with the message printed to stderr) or the final
`(processed, errors, effects)` summary. -/
def process (env : BEnv) (cfg : BConfig) (raw : List (String × Option String)) :
    Except String (Nat × Nat × List Eff) :=
  match cfg.input_folder with
  | none => .error "INPUT_FOLDER environment variable is required and must be a gs:// path."
  | some folder =>
    if ¬ is_gs_path folder then
      .error "INPUT_FOLDER must be a gs:// path. Local directories are not supported."
    else if cfg.task_count ≤ 0 then
      .error "CLOUD_RUN_TASK_COUNT must be >= 1"
    else if cfg.task_index < 0 ∨ cfg.task_count ≤ cfg.task_index then
      .error "CLOUD_RUN_TASK_INDEX out of range for TASK_COUNT"
    else
      let bucket := (parse_gs_path folder).1
      let objects := list_gs_objects raw
      let images := (objects.filter
        (fun b => looks_like_image (basename b.1) b.2)).map (fun b => (b.1, basename b.1))
      let total := images.length
      if total = 0 then .ok (0, 0, [])
      else
        let cnt := cfg.task_count.toNat
        let idx := cfg.task_index.toNat
        let start := chunk_start total cnt idx
        let stop := chunk_end total cnt idx
        if total ≤ start then .ok (0, 0, [])
        else
          let assigned := (images.drop start).take (stop - start)
          .ok (process_items env bucket assigned)

/-! ## Pillow `Image.thumbnail` size computation

`create_thumbnail_bytes` calls `img.thumbnail((100, 100), LANCZOS)`. The
output dimensions follow Pillow `Image.thumbnail`: unchanged when the
image already fits the box, otherwise the constrained side is set to the
box edge and the other side is the floor or ceiling of the exact
aspect-preserving value, whichever yields the closer aspect ratio (floor
on ties), clamped to at least 1. Modelled in exact rational arithmetic. -/

/-- Pillow `round_aspect`: `max(min(floor(number), ceil(number), key=key), 1)`,
where Python `min` keeps the first argument on a tie. -/
def roundAspect (number : ℚ) (key : Nat → ℚ) : Nat :=
  let f := (⌊number⌋).toNat
  let c := (⌈number⌉).toNat
  max (if key f ≤ key c then f else c) 1

/-- Output dimensions of `img.thumbnail((100, 100), ...)` for a `w × h`
source, following Pillow `Image.thumbnail`. -/
def thumbnail_size (w h : Nat) : Nat × Nat :=
  if w ≤ 100 ∧ h ≤ 100 then (w, h)
  else
    let aspect : ℚ := (w : ℚ) / (h : ℚ)
    if aspect ≤ 1 then
      (roundAspect (100 * aspect) (fun n => |aspect - (n : ℚ) / 100|), 100)
    else
      (100, roundAspect (100 / aspect)
        (fun n => if n = 0 then 0 else |aspect - 100 / (n : ℚ)|))

/-! ## Shared lemmas -/

theorem Store.update_self (s : Store) (k : String) (r : IdemRecord) :
    s.update k r k = some r := by
  simp [Store.update]

theorem Store.update_other (s : Store) (k : String) (r : IdemRecord) (k' : String)
    (h : k' ≠ k) : s.update k r k' = s k' := by
  simp [Store.update, h]

theorem chunk_size_pos (total cnt : Nat) (h1 : 1 ≤ total) (h2 : 1 ≤ cnt) :
    1 ≤ chunk_size total cnt := by
  rw [chunk_size, Nat.le_div_iff_mul_le (by omega)]
  omega

theorem chunk_size_mul_count (total cnt : Nat) (h1 : 1 ≤ total) (h2 : 1 ≤ cnt) :
    total ≤ chunk_size total cnt * cnt := by
  have hkey : total + cnt - 1 < (chunk_size total cnt + 1) * cnt :=
    (Nat.div_lt_iff_lt_mul (by omega)).mp (Nat.lt_succ_self _)
  rw [Nat.succ_mul] at hkey
  generalize chunk_size total cnt * cnt = P at hkey ⊢
  omega

theorem chunk_cover_unique (total cnt i : Nat) (h1 : 1 ≤ total) (h2 : 1 ≤ cnt)
    (hi : i < total) :
    ∃! t, t < cnt ∧ chunk_start total cnt t ≤ i ∧ i < chunk_end total cnt t := by
  have hcs : 1 ≤ chunk_size total cnt := chunk_size_pos total cnt h1 h2
  set cs := chunk_size total cnt with hcsdef
  refine ⟨i / cs, ⟨?_, ?_, ?_⟩, ?_⟩
  · rw [Nat.div_lt_iff_lt_mul (by omega)]
    calc i < total := hi
    _ ≤ cs * cnt := chunk_size_mul_count total cnt h1 h2
    _ = cnt * cs := Nat.mul_comm _ _
  · rw [chunk_start, ← hcsdef, Nat.mul_comm]
    exact Nat.div_mul_le_self i cs
  · rw [chunk_end, chunk_start, ← hcsdef, Nat.lt_min]
    refine ⟨?_, hi⟩
    have := (Nat.div_lt_iff_lt_mul (show 0 < cs by omega)).mp (Nat.lt_succ_self (i / cs))
    rw [Nat.succ_mul] at this
    rw [Nat.mul_comm]
    omega
  · rintro t ⟨htc, hts, hte⟩
    rw [chunk_start, ← hcsdef] at hts
    rw [chunk_end, chunk_start, ← hcsdef, Nat.lt_min] at hte
    refine (Nat.div_eq_of_lt_le ?_ ?_).symm
    · rw [Nat.mul_comm]; exact hts
    · rw [Nat.succ_mul, Nat.mul_comm]; omega

/-! ## Claim C3 — batch shard arithmetic -/

/-- Benign batch environment used in the shard-arithmetic statements. -/
def c3Env : BEnv where
  download := fun _ _ => .ok 0
  create_thumbnail := fun _ _ => .ok 1
  image_open := fun _ => .ok ()
  upload := fun _ _ _ _ => .ok ()
  guess_mime := fun _ => Option.none
  ts := "20250101T00Z"

/-- Listing of four eligible images used in the shard-arithmetic
statements. -/
def c3Listing : List (String × Option String) :=
  [("pics/a.png", Option.none), ("pics/b.png", Option.none),
   ("pics/c.png", Option.none), ("pics/d.png", Option.none)]

/-- Claim C3, counterexample: with `total = 4`, `taskCount = 5`,
`taskIndex = 2`, the code computes `chunkSize = 1` and the shard
`[2, 3)`, which is not empty — the run processes one item, not zero. -/
theorem c3_counterexample :
    chunk_start 4 5 2 = 2 ∧ chunk_end 4 5 2 = 3 ∧
      ¬ chunk_end 4 5 2 ≤ chunk_start 4 5 2 ∧
      process c3Env ⟨some "gs://b/pics", 2, 5⟩ c3Listing =
        .ok (1, 0, [.download "b" "pics/c.png", .thumb "PNG",
          .upload "b" "20250101T00Z/c.png"]) := by
  refine ⟨by decide, by decide, by decide, by decide⟩

/-- Claim C3 (amended): for every `total ≥ 1` and `taskCount ≥ 1` the
shards `[chunkSize*t, min(chunkSize*t + chunkSize, total))` over
`t = 0..taskCount-1` cover every image index exactly once; `total = 10`,
`taskCount = 3` yields `[0,4), [4,8), [8,10)`; and `taskIndex = 4`,
`total = 4`, `taskCount = 5` yields an empty shard, the worker
terminating successfully having processed zero items. -/
theorem c3_amended :
    (∀ total cnt i : Nat, 1 ≤ total → 1 ≤ cnt → i < total →
      ∃! t, t < cnt ∧ chunk_start total cnt t ≤ i ∧ i < chunk_end total cnt t) ∧
    (chunk_start 10 3 0 = 0 ∧ chunk_end 10 3 0 = 4) ∧
    (chunk_start 10 3 1 = 4 ∧ chunk_end 10 3 1 = 8) ∧
    (chunk_start 10 3 2 = 8 ∧ chunk_end 10 3 2 = 10) ∧
    chunk_end 4 5 4 ≤ chunk_start 4 5 4 ∧
    process c3Env ⟨some "gs://b/pics", 4, 5⟩ c3Listing = .ok (0, 0, []) := by
  refine ⟨chunk_cover_unique, by decide, by decide, by decide, by decide, by decide⟩

/-- Witness for `c3_amended`: image index 5 of a 10-image listing split
across 3 workers lies in exactly one shard. -/
theorem c3_amended_witness :
    (1 ≤ 10 ∧ 1 ≤ 3 ∧ 5 < 10) ∧
      ∃! t, t < 3 ∧ chunk_start 10 3 t ≤ 5 ∧ 5 < chunk_end 10 3 t :=
  ⟨⟨by decide, by decide, by decide⟩,
    c3_amended.1 10 3 5 (by decide) (by decide) (by decide)⟩

/-! ## Claim C6 — batch per-item fault isolation -/

theorem process_item_download_mem (env : BEnv) (bucket : String) (it : String × String) :
    Eff.download bucket it.1 ∈ (process_item env bucket it).2 := by
  simp only [process_item]
  cases hd : env.download bucket it.1 with
  | error e => simp
  | ok bytes =>
    dsimp only
    cases ht : env.create_thumbnail bytes (infer_format_from_ext it.2) with
    | ok tb =>
      dsimp only [batch_upload]
      split <;> simp
    | error e1 =>
      dsimp only
      cases ho : env.image_open bytes with
      | error e2 => simp
      | ok u =>
        dsimp only
        cases ht2 : env.create_thumbnail bytes "PNG" with
        | error e3 => simp
        | ok tb =>
          dsimp only [batch_upload]
          split <;> simp

theorem process_item_upload_mem (env : BEnv) (bucket : String) (it : String × String)
    (h : (process_item env bucket it).1 = true) :
    Eff.upload bucket (env.ts ++ "/" ++ it.2) ∈ (process_item env bucket it).2 := by
  simp only [process_item] at h ⊢
  cases hd : env.download bucket it.1 with
  | error e => rw [hd] at h; simp at h
  | ok bytes =>
    rw [hd] at h
    dsimp only at h ⊢
    cases ht : env.create_thumbnail bytes (infer_format_from_ext it.2) with
    | ok tb =>
      rw [ht] at h
      dsimp only [batch_upload] at h ⊢
      split <;> simp
    | error e1 =>
      rw [ht] at h
      dsimp only at h ⊢
      cases ho : env.image_open bytes with
      | error e2 => rw [ho] at h; simp at h
      | ok u =>
        rw [ho] at h
        dsimp only at h ⊢
        cases ht2 : env.create_thumbnail bytes "PNG" with
        | error e3 => rw [ht2] at h; simp at h
        | ok tb =>
          rw [ht2] at h
          dsimp only [batch_upload] at h ⊢
          split <;> simp

theorem length_filter_split {α : Type} (l : List α) (p : α → Bool) :
    (l.filter p).length + (l.filter (fun a => ! p a)).length = l.length := by
  induction l with
  | nil => simp
  | cons a t ih =>
    by_cases h : p a <;> simp [h] <;> omega

theorem process_items_counts (env : BEnv) (bucket : String)
    (items : List (String × String)) :
    (process_items env bucket items).1 =
        (items.filter (fun it => (process_item env bucket it).1)).length ∧
      (process_items env bucket items).2.1 =
        (items.filter (fun it => ! (process_item env bucket it).1)).length := by
  induction items with
  | nil => simp [process_items]
  | cons it rest ih =>
    rcases ih with ⟨ih1, ih2⟩
    by_cases hb : (process_item env bucket it).1
    · constructor <;> simp [process_items, hb, ih1, ih2] <;> omega
    · constructor <;> simp [process_items, hb, ih1, ih2] <;> omega

theorem process_items_trace_mem (env : BEnv) (bucket : String)
    (items : List (String × String)) (it : String × String) (hit : it ∈ items)
    (e : Eff) (he : e ∈ (process_item env bucket it).2) :
    e ∈ (process_items env bucket items).2.2 := by
  induction items with
  | nil => cases hit
  | cons hd rest ih =>
    rcases List.mem_cons.mp hit with h | h
    · subst h
      simp only [process_items, List.mem_append]
      exact Or.inl he
    · simp only [process_items, List.mem_append]
      exact Or.inr (ih h)

/-- Batch environment for the concrete two-item scenario of claim C6: the
download of `pics/a.png` fails, everything else succeeds. -/
def c6Env : BEnv where
  download := fun _ n => if n = "pics/a.png" then .error "boom" else .ok 0
  create_thumbnail := fun _ _ => .ok 1
  image_open := fun _ => .ok ()
  upload := fun _ _ _ _ => .ok ()
  guess_mime := fun _ => Option.none
  ts := "20250101T00Z"

/-- Claim C6: in every batch run, a per-item failure is counted and does
not abort the run — every assigned item is still attempted (its download
is in the trace), the summary counters are exactly the number of
successful and of failed items and account for every assigned item, and
each successful item got its thumbnail uploaded to its destination. The
final conjunct is the concrete scenario of the specification: one item
whose download fails and one that succeeds yield the summary
`1 processed, 1 errored` with the successful thumbnail uploaded. -/
theorem c6_per_item_isolation :
    (∀ (env : BEnv) (bucket : String) (items : List (String × String)),
      (process_items env bucket items).1 + (process_items env bucket items).2.1 =
          items.length ∧
        (process_items env bucket items).1 =
          (items.filter (fun it => (process_item env bucket it).1)).length ∧
        (process_items env bucket items).2.1 =
          (items.filter (fun it => ! (process_item env bucket it).1)).length ∧
        (∀ it ∈ items, Eff.download bucket it.1 ∈ (process_items env bucket items).2.2) ∧
        (∀ it ∈ items, (process_item env bucket it).1 = true →
          Eff.upload bucket (env.ts ++ "/" ++ it.2) ∈ (process_items env bucket items).2.2)) ∧
    process c6Env ⟨some "gs://b/pics", 0, 1⟩
        [("pics/a.png", Option.none), ("pics/b.png", Option.none)] =
      .ok (1, 1, [.download "b" "pics/a.png", .download "b" "pics/b.png",
        .thumb "PNG", .upload "b" "20250101T00Z/b.png"]) := by
  constructor
  · intro env bucket items
    obtain ⟨h1, h2⟩ := process_items_counts env bucket items
    refine ⟨?_, h1, h2, ?_, ?_⟩
    · rw [h1, h2]
      exact length_filter_split items (fun it => (process_item env bucket it).1)
    · intro it hit
      exact process_items_trace_mem env bucket items it hit _
        (process_item_download_mem env bucket it)
    · intro it hit hok
      exact process_items_trace_mem env bucket items it hit _
        (process_item_upload_mem env bucket it hok)
  · decide

/-- Witness for `c6_per_item_isolation`: the two-item run of `c6Env`
attempts both items and uploads the successful one. -/
theorem c6_witness :
    ("pics/b.png", "b.png") ∈ [(("pics/a.png" : String), ("a.png" : String)),
        ("pics/b.png", "b.png")] ∧
      Eff.download "b" "pics/a.png" ∈
        (process_items c6Env "b"
          [("pics/a.png", "a.png"), ("pics/b.png", "b.png")]).2.2 :=
  ⟨by decide,
    (c6_per_item_isolation.1 c6Env "b"
        [("pics/a.png", "a.png"), ("pics/b.png", "b.png")]).2.2.2.1
      ("pics/a.png", "a.png") (by decide)⟩

/-! ## Event-handler structure lemmas -/

/-- Outcome of `handle_event` when the key already has a record: answer
from the cache, leaving the store untouched (one lock release, no
effects). -/
def mkCachedOut (store : Store) (key : String) (r : IdemRecord) : HEOut :=
  match r.status with
  | .completed => ⟨.alreadyProcessed key r.dest_blob r.uploaded_at, store, [store], []⟩
  | .processing => ⟨.processingResp key, store, [store], []⟩
  | .failed => ⟨.cachedFailed key r.error, store, [store], []⟩

/-- Unfolding of `handle_event` on a parsed event in terms of the named
key/bucket/object projections. -/
theorem handle_event_ok_eq (env : Env) (data : Payload) (store : Store) :
    handle_event env (.ok data) store =
      (if ¬ pyTruthy (extract_field data ["bucket"]) ∨
          ¬ pyTruthy (extract_field data ["file_name", "name"]) ∨
          extract_field data ["generation"] = PyVal.none then
        ⟨.missingFields ["bucket", "file_name or name", "generation"], store, [], []⟩
      else
        match store (eventKey data) with
        | some r => mkCachedOut store (eventKey data) r
        | none =>
          he_claimed env store (eventKey data) (eventBucket data) (eventObject data)) :=
  rfl

theorem fields_ok_cond (data : Payload)
    (hb : pyTruthy (extract_field data ["bucket"]))
    (ho : pyTruthy (extract_field data ["file_name", "name"]))
    (hg : extract_field data ["generation"] ≠ PyVal.none) :
    ¬ (¬ pyTruthy (extract_field data ["bucket"]) ∨
        ¬ pyTruthy (extract_field data ["file_name", "name"]) ∨
        extract_field data ["generation"] = PyVal.none) := by
  rintro (h | h | h)
  exacts [h hb, h ho, hg h]

/-- Shape of the upload stage: one further lock release writing the
terminal record at the claimed key — `upload_error`/Failed on a failed
upload, Completed with the `gs://<bucket>/<ts>/resized/<basename>`
destination on success. -/
theorem he_finish_shape (env : Env) (s1 : Store) (key bucketS objectS fmt : String)
    (tb : Bytes) (tr : List Eff) :
    (he_finish env s1 key bucketS objectS fmt tb tr).states =
        [s1, (he_finish env s1 key bucketS objectS fmt tb tr).store] ∧
      ((∃ e, (he_finish env s1 key bucketS objectS fmt tb tr).store =
            s1.update key (failRecord ("upload_error: " ++ e)) ∧
          (he_finish env s1 key bucketS objectS fmt tb tr).resp = .uploadFailed e) ∨
        ((he_finish env s1 key bucketS objectS fmt tb tr).store =
            s1.update key (doneRecord
              ("gs://" ++ bucketS ++ "/" ++ (env.ts_folder ++ "/resized/" ++ basename objectS))
              env.now_iso) ∧
          (he_finish env s1 key bucketS objectS fmt tb tr).resp =
            .ok key ("gs://" ++ bucketS ++ "/" ++
              (env.ts_folder ++ "/resized/" ++ basename objectS)) ∧
          Eff.upload bucketS (env.ts_folder ++ "/resized/" ++ basename objectS) ∈
            (he_finish env s1 key bucketS objectS fmt tb tr).trace)) := by
  unfold he_finish
  dsimp only
  split
  · exact ⟨rfl, Or.inl ⟨_, rfl, rfl⟩⟩
  · exact ⟨rfl, Or.inr ⟨rfl, rfl, by simp⟩⟩

/-- Shape of the whole claimed path: the store goes through exactly the
claim write and one terminal write at the claimed key, and the states
observed at the lock releases are those two. On the Failed side no
success response is produced; on the Completed side the response reports
the recorded `resized` destination, which was uploaded. -/
theorem he_claimed_shape (env : Env) (store : Store) (key bucketS objectS : String) :
    (he_claimed env store key bucketS objectS).states =
        [store.update key procRecord, (he_claimed env store key bucketS objectS).store] ∧
      ((∃ e, (he_claimed env store key bucketS objectS).store =
            (store.update key procRecord).update key (failRecord e) ∧
          ∀ k2 p2, (he_claimed env store key bucketS objectS).resp ≠ .ok k2 p2) ∨
        ((he_claimed env store key bucketS objectS).store =
            (store.update key procRecord).update key (doneRecord
              ("gs://" ++ bucketS ++ "/" ++ (env.ts_folder ++ "/resized/" ++ basename objectS))
              env.now_iso) ∧
          (he_claimed env store key bucketS objectS).resp =
            .ok key ("gs://" ++ bucketS ++ "/" ++
              (env.ts_folder ++ "/resized/" ++ basename objectS)) ∧
          Eff.upload bucketS (env.ts_folder ++ "/resized/" ++ basename objectS) ∈
            (he_claimed env store key bucketS objectS).trace)) := by
  unfold he_claimed
  dsimp only
  cases hd : env.download bucketS objectS with
  | error e => exact ⟨rfl, Or.inl ⟨_, rfl, by intro k2 p2 h; cases h⟩⟩
  | ok bytes =>
    dsimp only
    unfold he_thumb
    dsimp only
    cases ht : env.create_thumbnail bytes (infer_format_from_ext objectS) with
    | ok tb =>
      dsimp only
      obtain ⟨hs, hrest⟩ := he_finish_shape env (store.update key procRecord) key bucketS
        objectS (infer_format_from_ext objectS) tb
        ([Eff.download bucketS objectS] ++ [Eff.thumb (infer_format_from_ext objectS)])
      refine ⟨hs, ?_⟩
      rcases hrest with ⟨e, hst, hresp⟩ | ⟨hst, hresp, hmem⟩
      · exact Or.inl ⟨_, hst, by intro k2 p2 hcon; rw [hresp] at hcon; cases hcon⟩
      · exact Or.inr ⟨hst, hresp, hmem⟩
    | error e1 =>
      dsimp only
      cases ho : env.image_open bytes with
      | error e2 => exact ⟨rfl, Or.inl ⟨_, rfl, by intro k2 p2 h; cases h⟩⟩
      | ok u =>
        dsimp only
        cases ht2 : env.create_thumbnail bytes "PNG" with
        | error e3 => exact ⟨rfl, Or.inl ⟨_, rfl, by intro k2 p2 h; cases h⟩⟩
        | ok tb =>
          dsimp only
          obtain ⟨hs, hrest⟩ := he_finish_shape env (store.update key procRecord) key bucketS
            objectS "PNG" tb ([Eff.download bucketS objectS] ++
              [Eff.thumb (infer_format_from_ext objectS), Eff.openCheck, Eff.thumb "PNG"])
          refine ⟨hs, ?_⟩
          rcases hrest with ⟨e, hst, hresp⟩ | ⟨hst, hresp, hmem⟩
          · exact Or.inl ⟨_, hst, by intro k2 p2 hcon; rw [hresp] at hcon; cases hcon⟩
          · exact Or.inr ⟨hst, hresp, hmem⟩

/-! ## Record and store well-formedness (claim C8) -/

/-- Field discipline of one ledger record: destination and upload
timestamp present iff Completed, error present iff Failed. -/
def WFRecord (r : IdemRecord) : Prop :=
  (r.status = .completed ↔ r.dest_blob.isSome) ∧
    (r.status = .completed ↔ r.uploaded_at.isSome) ∧
    (r.status = .failed ↔ r.error.isSome)

/-- Field discipline of every record in the store. -/
def WFStore (s : Store) : Prop := ∀ k r, s k = some r → WFRecord r

theorem wf_procRecord : WFRecord procRecord := by
  refine ⟨?_, ?_, ?_⟩ <;> simp [procRecord]

theorem wf_failRecord (e : String) : WFRecord (failRecord e) := by
  refine ⟨?_, ?_, ?_⟩ <;> simp [failRecord]

theorem wf_doneRecord (p iso : String) : WFRecord (doneRecord p iso) := by
  refine ⟨?_, ?_, ?_⟩ <;> simp [doneRecord]

theorem wf_store_update (s : Store) (k : String) (r : IdemRecord)
    (hs : WFStore s) (hr : WFRecord r) : WFStore (s.update k r) := by
  intro k' r' h
  by_cases hk : k' = k
  · rw [hk, Store.update_self] at h
    cases h
    exact hr
  · rw [Store.update_other s k r k' hk] at h
    exact hs k' r' h

theorem mkCachedOut_resp_store (store : Store) (key : String) (r : IdemRecord) :
    (mkCachedOut store key r).store = store ∧ (mkCachedOut store key r).states = [store] ∧
      (mkCachedOut store key r).trace = [] := by
  unfold mkCachedOut
  cases r.status <;> exact ⟨rfl, rfl, rfl⟩

/-- Output formats attempted by `create_thumbnail_bytes` calls, in
order. -/
def thumbAttempts (l : List Eff) : List String :=
  l.filterMap (fun e => match e with | .thumb f => some f | _ => none)

/-! ## Shared concrete fixtures -/

/-- Environment in which every external call succeeds. -/
def okEnv : Env where
  download := fun _ _ => .ok 0
  create_thumbnail := fun _ _ => .ok 1
  image_open := fun _ => .ok ()
  upload := fun _ _ _ _ => .ok ()
  guess_mime := fun _ => Option.none
  ts_folder := "20250101T00Z"
  now_iso := "2025-01-01T00:00:00+00:00"

/-- Mapping-shaped payload carrying the full triple. -/
def pDataFull : Payload where
  isDict := true
  dict := fun k =>
    if k = "bucket" then some (.str "b")
    else if k = "name" then some (.str "dir/pic.png")
    else if k = "generation" then some (.int 1) else Option.none
  attr := fun _ => .none

/-- Mapping-shaped payload carrying only the bucket. -/
def c7Data : Payload where
  isDict := true
  dict := fun k => if k = "bucket" then some (.str "b") else Option.none
  attr := fun _ => .none

/-! ## Claim C2 — Completed keys answered from the cache -/

/-- Claim C2: when the ledger record of the computed key is Completed, a
further `handle_event` call with that key returns HTTP 200 carrying the
cached destination and timestamp, leaves the store untouched, and
performs no external effect at all (no download, no thumbnail attempt, no
upload). -/
theorem c2_completed_cached (env : Env) (data : Payload) (store : Store) (r : IdemRecord)
    (hb : pyTruthy (extract_field data ["bucket"]))
    (ho : pyTruthy (extract_field data ["file_name", "name"]))
    (hg : extract_field data ["generation"] ≠ PyVal.none)
    (hr : store (eventKey data) = some r) (hst : r.status = .completed) :
    (handle_event env (.ok data) store).resp =
        .alreadyProcessed (eventKey data) r.dest_blob r.uploaded_at ∧
      httpStatus (handle_event env (.ok data) store).resp = 200 ∧
      (handle_event env (.ok data) store).store = store ∧
      (handle_event env (.ok data) store).trace = [] := by
  rw [handle_event_ok_eq, if_neg (fields_ok_cond data hb ho hg), hr]
  dsimp only
  unfold mkCachedOut
  rw [hst]
  exact ⟨rfl, rfl, rfl, rfl⟩

/-- Store holding one Completed record for the key of `pDataFull`. -/
def c2Store : Store :=
  emptyStore.update "b/dir/pic.png@1"
    (doneRecord "gs://b/20240101T00Z/resized/pic.png" "2024-01-01T00:00:00+00:00")

/-- Witness for `c2_completed_cached` at a concrete Completed record. -/
theorem c2_witness :
    (pyTruthy (extract_field pDataFull ["bucket"]) ∧
        pyTruthy (extract_field pDataFull ["file_name", "name"]) ∧
        extract_field pDataFull ["generation"] ≠ PyVal.none ∧
        c2Store (eventKey pDataFull) = some (doneRecord
          "gs://b/20240101T00Z/resized/pic.png" "2024-01-01T00:00:00+00:00")) ∧
      (handle_event okEnv (.ok pDataFull) c2Store).trace = [] ∧
      httpStatus (handle_event okEnv (.ok pDataFull) c2Store).resp = 200 :=
  ⟨⟨by decide, by decide, by decide, by decide⟩,
    (c2_completed_cached okEnv pDataFull c2Store
        (doneRecord "gs://b/20240101T00Z/resized/pic.png" "2024-01-01T00:00:00+00:00")
        (by decide) (by decide) (by decide) (by decide) rfl).2.2.2,
    (c2_completed_cached okEnv pDataFull c2Store
        (doneRecord "gs://b/20240101T00Z/resized/pic.png" "2024-01-01T00:00:00+00:00")
        (by decide) (by decide) (by decide) (by decide) rfl).2.1⟩

/-! ## Claim C7 — MissingFields error contents -/

/-- Claim C7, counterexample: a payload supplying only the bucket still
receives the fixed required-field list — the error names `bucket`
although the bucket was resolved, so the list is not the subset of
unresolved fields. -/
theorem c7_counterexample :
    extract_field c7Data ["bucket"] = PyVal.str "b" ∧
      pyTruthy (extract_field c7Data ["bucket"]) = true ∧
      (handle_event okEnv (.ok c7Data) emptyStore).resp =
        .missingFields ["bucket", "file_name or name", "generation"] := by
  exact ⟨by decide, by decide, by decide⟩

/-- Claim C7 (amended): whenever the triple cannot be fully resolved
(falsy bucket, falsy object name, or absent generation), `handle_event`
returns HTTP 400 with a MissingFields error naming the fixed list
`bucket`, `file_name or name`, `generation`, independent of which fields
are absent. -/
theorem c7_amended (env : Env) (data : Payload) (store : Store)
    (h : ¬ pyTruthy (extract_field data ["bucket"]) ∨
        ¬ pyTruthy (extract_field data ["file_name", "name"]) ∨
        extract_field data ["generation"] = PyVal.none) :
    (handle_event env (.ok data) store).resp =
        .missingFields ["bucket", "file_name or name", "generation"] ∧
      httpStatus (handle_event env (.ok data) store).resp = 400 := by
  rw [handle_event_ok_eq, if_pos h]
  exact ⟨rfl, rfl⟩

/-- Witness for `c7_amended`: the bucket-only payload is rejected with
the fixed list. -/
theorem c7_amended_witness :
    (¬ pyTruthy (extract_field c7Data ["bucket"]) ∨
        ¬ pyTruthy (extract_field c7Data ["file_name", "name"]) ∨
        extract_field c7Data ["generation"] = PyVal.none) ∧
      (handle_event okEnv (.ok c7Data) emptyStore).resp =
        .missingFields ["bucket", "file_name or name", "generation"] :=
  ⟨by decide,
    (c7_amended okEnv c7Data emptyStore (by decide)).1⟩

/-! ## Claim C10 — object-name field priority -/

/-- Claim C10: `handle_event` resolves the object name with
`_extract_field(data, "file_name", "name")`; whenever `file_name`
resolves to a non-absent value, that value wins and `name` is never
consulted. -/
theorem c10_file_name_priority (data : Payload)
    (h : extract_field data ["file_name"] ≠ PyVal.none) :
    extract_field data ["file_name", "name"] = extract_field data ["file_name"] := by
  cases hid : data.isDict with
  | true =>
    cases hdt : data.dict "file_name" with
    | some v => simp [extract_field, hid, hdt]
    | none =>
      cases ha : data.attr "file_name" with
      | none => simp [extract_field, hid, hdt, ha] at h
      | str s => simp [extract_field, hid, hdt, ha]
      | int n => simp [extract_field, hid, hdt, ha]
  | false =>
    cases ha : data.attr "file_name" with
    | none => simp [extract_field, hid, ha] at h
    | str s => simp [extract_field, hid, ha]
    | int n => simp [extract_field, hid, ha]

/-- Attribute-shaped payload supplying both object-name fields with
different values. -/
def c10Data : Payload where
  isDict := false
  dict := fun _ => Option.none
  attr := fun k =>
    if k = "file_name" then .str "from-file-name.png"
    else if k = "name" then .str "from-name.png" else .none

/-- Witness for `c10_file_name_priority`: with both fields supplied and
different, the `file_name` value is the one resolved. -/
theorem c10_witness :
    extract_field c10Data ["file_name"] ≠ PyVal.none ∧
      extract_field c10Data ["file_name", "name"] = extract_field c10Data ["file_name"] ∧
      extract_field c10Data ["file_name"] = PyVal.str "from-file-name.png" ∧
      extract_field c10Data ["name"] = PyVal.str "from-name.png" :=
  ⟨by decide, c10_file_name_priority c10Data (by decide), by decide, by decide⟩

/-! ## Claim C1 — a claimed call always ends terminal -/

/-- Claim C1: an event-mode call that claims its key (no prior record)
leaves, on return, a record for that key that is Completed or Failed —
never Processing — and in the Completed case the thumbnail was uploaded
to the recorded destination. -/
theorem c1_claimed_terminal (env : Env) (data : Payload) (store : Store)
    (hb : pyTruthy (extract_field data ["bucket"]))
    (ho : pyTruthy (extract_field data ["file_name", "name"]))
    (hg : extract_field data ["generation"] ≠ PyVal.none)
    (hnew : store (eventKey data) = none) :
    ∃ r, (handle_event env (.ok data) store).store (eventKey data) = some r ∧
      r.status ≠ .processing ∧
      (r.status = .failed ∨
        (r.status = .completed ∧
          ∃ dest, r.dest_blob = some ("gs://" ++ eventBucket data ++ "/" ++ dest) ∧
            Eff.upload (eventBucket data) dest ∈
              (handle_event env (.ok data) store).trace)) := by
  rw [handle_event_ok_eq, if_neg (fields_ok_cond data hb ho hg), hnew]
  dsimp only
  obtain ⟨hs, hrest⟩ :=
    he_claimed_shape env store (eventKey data) (eventBucket data) (eventObject data)
  rcases hrest with ⟨e, hst, _⟩ | ⟨hst, hresp, hmem⟩
  · refine ⟨failRecord e, ?_, ?_, Or.inl rfl⟩
    · rw [hst, Store.update_self]
    · simp [failRecord]
  · refine ⟨doneRecord ("gs://" ++ eventBucket data ++ "/" ++
      (env.ts_folder ++ "/resized/" ++ basename (eventObject data))) env.now_iso,
      ?_, ?_, Or.inr ⟨rfl, ⟨_, rfl, hmem⟩⟩⟩
    · rw [hst, Store.update_self]
    · simp [doneRecord]

/-- Witness for `c1_claimed_terminal`: a fresh key in the all-success
environment ends Completed. -/
theorem c1_witness :
    (pyTruthy (extract_field pDataFull ["bucket"]) ∧
        pyTruthy (extract_field pDataFull ["file_name", "name"]) ∧
        extract_field pDataFull ["generation"] ≠ PyVal.none ∧
        emptyStore (eventKey pDataFull) = none) ∧
      ∃ r, (handle_event okEnv (.ok pDataFull) emptyStore).store (eventKey pDataFull) =
          some r ∧
        r.status ≠ .processing ∧
        (r.status = .failed ∨
          (r.status = .completed ∧
            ∃ dest, r.dest_blob = some ("gs://" ++ eventBucket pDataFull ++ "/" ++ dest) ∧
              Eff.upload (eventBucket pDataFull) dest ∈
                (handle_event okEnv (.ok pDataFull) emptyStore).trace)) :=
  ⟨⟨by decide, by decide, by decide, rfl⟩,
    c1_claimed_terminal okEnv pDataFull emptyStore (by decide) (by decide) (by decide) rfl⟩

/-! ## Claim C4 — event-mode destination layout -/

/-- Claim C4, counterexample: a successful event-mode call for object
`dir/pic.png` uploads to `20250101T00Z/resized/pic.png` — with the
`resized` segment between the timestamp folder and the basename — and no
upload to the plain `20250101T00Z/pic.png` destination occurs. -/
theorem c4_counterexample :
    (handle_event okEnv (.ok pDataFull) emptyStore).resp =
        .ok "b/dir/pic.png@1" "gs://b/20250101T00Z/resized/pic.png" ∧
      (handle_event okEnv (.ok pDataFull) emptyStore).trace =
        [.download "b" "dir/pic.png", .thumb "PNG",
          .upload "b" "20250101T00Z/resized/pic.png"] ∧
      okEnv.ts_folder ++ "/" ++ basename (eventObject pDataFull) = "20250101T00Z/pic.png" ∧
      Eff.upload "b" "20250101T00Z/pic.png" ∉
        (handle_event okEnv (.ok pDataFull) emptyStore).trace := by
  exact ⟨by decide, by decide, by decide, by decide⟩

/-- Claim C4 (amended): every successful event-mode call uploads the
thumbnail to `<bucket>/<YYYYMMDDTHHZ>/resized/<basename(o)>` — the
`resized` layout, with one intermediate segment between the
hour-granularity timestamp folder and the basename — and records exactly
that destination. -/
theorem c4_amended (env : Env) (data : Payload) (store : Store) (k p : String)
    (h : (handle_event env (.ok data) store).resp = .ok k p) :
    k = eventKey data ∧
      p = "gs://" ++ eventBucket data ++ "/" ++
        (env.ts_folder ++ "/resized/" ++ basename (eventObject data)) ∧
      Eff.upload (eventBucket data)
          (env.ts_folder ++ "/resized/" ++ basename (eventObject data)) ∈
        (handle_event env (.ok data) store).trace ∧
      (handle_event env (.ok data) store).store (eventKey data) =
        some (doneRecord p env.now_iso) := by
  rw [handle_event_ok_eq] at h ⊢
  by_cases hcond : ¬ pyTruthy (extract_field data ["bucket"]) ∨
      ¬ pyTruthy (extract_field data ["file_name", "name"]) ∨
      extract_field data ["generation"] = PyVal.none
  · rw [if_pos hcond] at h
    cases h
  · rw [if_neg hcond] at h ⊢
    rcases hsk : store (eventKey data) with _ | r
    · rw [hsk] at h
      dsimp only at h
      obtain ⟨hs, hrest⟩ :=
        he_claimed_shape env store (eventKey data) (eventBucket data) (eventObject data)
      rcases hrest with ⟨e, hst, hne⟩ | ⟨hst, hresp, hmem⟩
      · exact absurd h (hne k p)
      · rw [hresp] at h
        injection h with h1 h2
        subst h1
        subst h2
        refine ⟨rfl, rfl, hmem, ?_⟩
        rw [hst, Store.update_self]
    · exfalso
      rw [hsk] at h
      dsimp only at h
      unfold mkCachedOut at h
      cases hstat : r.status <;> rw [hstat] at h <;> exact absurd h (by simp)

/-- Witness for `c4_amended`: the concrete successful call of
`c4_counterexample` records the `resized` destination. -/
theorem c4_amended_witness :
    (handle_event okEnv (.ok pDataFull) emptyStore).resp =
        .ok "b/dir/pic.png@1" "gs://b/20250101T00Z/resized/pic.png" ∧
      "gs://b/20250101T00Z/resized/pic.png" =
        "gs://" ++ eventBucket pDataFull ++ "/" ++
          (okEnv.ts_folder ++ "/resized/" ++ basename (eventObject pDataFull)) ∧
      Eff.upload (eventBucket pDataFull)
          (okEnv.ts_folder ++ "/resized/" ++ basename (eventObject pDataFull)) ∈
        (handle_event okEnv (.ok pDataFull) emptyStore).trace :=
  ⟨by decide,
    (c4_amended okEnv pDataFull emptyStore "b/dir/pic.png@1"
        "gs://b/20250101T00Z/resized/pic.png" (by decide)).2.1,
    (c4_amended okEnv pDataFull emptyStore "b/dir/pic.png@1"
        "gs://b/20250101T00Z/resized/pic.png" (by decide)).2.2.1⟩

/-! ## Claim C5 — format fallback policy -/

/-- Claim C5: when the inferred-format attempt fails on a claimed key,
the handler re-validates the bytes; undecodable input is reported as an
invalid image (HTTP 400) with no PNG retry — exactly one thumbnail
attempt; decodable input gets exactly one PNG retry, whose failure is
reported as a thumbnail error (HTTP 500) with no further attempt. -/
theorem c5_png_fallback (env : Env) (data : Payload) (store : Store) (bytes : Bytes)
    (err : String)
    (hb : pyTruthy (extract_field data ["bucket"]))
    (ho : pyTruthy (extract_field data ["file_name", "name"]))
    (hg : extract_field data ["generation"] ≠ PyVal.none)
    (hnew : store (eventKey data) = none)
    (hdl : env.download (eventBucket data) (eventObject data) = .ok bytes)
    (hfail : env.create_thumbnail bytes (infer_format_from_ext (eventObject data)) =
      .error err) :
    (∀ e, env.image_open bytes = .error e →
        (handle_event env (.ok data) store).resp = .invalidImage e ∧
          httpStatus (handle_event env (.ok data) store).resp = 400 ∧
          thumbAttempts (handle_event env (.ok data) store).trace =
            [infer_format_from_ext (eventObject data)]) ∧
      (∀ e2, env.image_open bytes = .ok () → env.create_thumbnail bytes "PNG" = .error e2 →
        (handle_event env (.ok data) store).resp = .thumbnailFailed e2 ∧
          httpStatus (handle_event env (.ok data) store).resp = 500 ∧
          thumbAttempts (handle_event env (.ok data) store).trace =
            [infer_format_from_ext (eventObject data), "PNG"]) := by
  rw [handle_event_ok_eq, if_neg (fields_ok_cond data hb ho hg), hnew]
  dsimp only
  unfold he_claimed
  rw [hdl]
  dsimp only
  unfold he_thumb
  dsimp only
  rw [hfail]
  dsimp only
  constructor
  · intro e he
    rw [he]
    exact ⟨rfl, rfl, by simp [thumbAttempts]⟩
  · intro e2 hopen hpng
    rw [hopen]
    dsimp only
    rw [hpng]
    exact ⟨rfl, rfl, by simp [thumbAttempts]⟩

/-- Environment whose thumbnail encoding always fails and whose bytes do
not decode. -/
def c5Env : Env where
  download := fun _ _ => .ok 0
  create_thumbnail := fun _ _ => .error "encode refused"
  image_open := fun _ => .error "cannot identify image file"
  upload := fun _ _ _ _ => .ok ()
  guess_mime := fun _ => Option.none
  ts_folder := "20250101T00Z"
  now_iso := "2025-01-01T00:00:00+00:00"

/-- Witness for `c5_png_fallback`: undecodable bytes give the invalid
image response with a single thumbnail attempt and no PNG retry. -/
theorem c5_witness :
    (pyTruthy (extract_field pDataFull ["bucket"]) ∧
        pyTruthy (extract_field pDataFull ["file_name", "name"]) ∧
        extract_field pDataFull ["generation"] ≠ PyVal.none ∧
        emptyStore (eventKey pDataFull) = none ∧
        c5Env.download (eventBucket pDataFull) (eventObject pDataFull) = .ok 0 ∧
        c5Env.create_thumbnail 0 (infer_format_from_ext (eventObject pDataFull)) =
          .error "encode refused" ∧
        c5Env.image_open 0 = .error "cannot identify image file") ∧
      (handle_event c5Env (.ok pDataFull) emptyStore).resp =
          .invalidImage "cannot identify image file" ∧
        httpStatus (handle_event c5Env (.ok pDataFull) emptyStore).resp = 400 ∧
        thumbAttempts (handle_event c5Env (.ok pDataFull) emptyStore).trace =
          [infer_format_from_ext (eventObject pDataFull)] :=
  ⟨⟨by decide, by decide, by decide, rfl, rfl, rfl, rfl⟩,
    (c5_png_fallback c5Env pDataFull emptyStore 0 "encode refused"
        (by decide) (by decide) (by decide) rfl rfl rfl).1
      "cannot identify image file" rfl⟩

/-! ## Claim C8 — ledger record lifecycle -/

/-- Claim C8: starting from a store whose records respect the field
discipline, one `handle_event` call (of any outcome) keeps the
discipline at the final state and at every lock release; it never
modifies a record that already existed, whatever its status (so
Completed and Failed records are never overwritten nor re-claimed, and a
Processing record is answered without touching it); and the only record
it can create goes through exactly one claim write in status Processing
followed by one transition to a non-Processing terminal status. -/
theorem c8_ledger_lifecycle (env : Env) (ev : Except String Payload) (store : Store)
    (hwf : WFStore store) :
    WFStore (handle_event env ev store).store ∧
      (∀ s ∈ (handle_event env ev store).states, WFStore s) ∧
      (∀ k r, store k = some r → (handle_event env ev store).store k = some r ∧
        ∀ s ∈ (handle_event env ev store).states, s k = some r) ∧
      (∀ k, store k = none → (handle_event env ev store).store k = none ∨
        ∃ r, (handle_event env ev store).store k = some r ∧ r.status ≠ .processing ∧
          (handle_event env ev store).states =
            [store.update k procRecord, (handle_event env ev store).store]) := by
  cases ev with
  | error e =>
    refine ⟨hwf, ?_, ?_, ?_⟩
    · intro s hs
      simp [handle_event] at hs
    · intro k r hk
      exact ⟨hk, by intro s hs; simp [handle_event] at hs⟩
    · intro k hk
      exact Or.inl hk
  | ok data =>
    rw [handle_event_ok_eq]
    by_cases hcond : ¬ pyTruthy (extract_field data ["bucket"]) ∨
        ¬ pyTruthy (extract_field data ["file_name", "name"]) ∨
        extract_field data ["generation"] = PyVal.none
    · rw [if_pos hcond]
      refine ⟨hwf, ?_, ?_, ?_⟩
      · intro s hs
        simp at hs
      · intro k r hk
        exact ⟨hk, by intro s hs; simp at hs⟩
      · intro k hk
        exact Or.inl hk
    · rw [if_neg hcond]
      rcases hsk : store (eventKey data) with _ | r
      · dsimp only
        obtain ⟨hs, hrest⟩ :=
          he_claimed_shape env store (eventKey data) (eventBucket data) (eventObject data)
        have hterm : ∃ r', (he_claimed env store (eventKey data) (eventBucket data)
              (eventObject data)).store =
              (store.update (eventKey data) procRecord).update (eventKey data) r' ∧
            r'.status ≠ .processing ∧ WFRecord r' := by
          rcases hrest with ⟨e, hst, _⟩ | ⟨hst, _, _⟩
          · exact ⟨failRecord e, hst, by simp [failRecord], wf_failRecord e⟩
          · exact ⟨doneRecord _ env.now_iso, hst, by simp [doneRecord], wf_doneRecord _ _⟩
        obtain ⟨r', hst, hrp, hrw⟩ := hterm
        have hwf1 : WFStore (store.update (eventKey data) procRecord) :=
          wf_store_update store (eventKey data) procRecord hwf wf_procRecord
        have hwf2 : WFStore (he_claimed env store (eventKey data) (eventBucket data)
            (eventObject data)).store := by
          rw [hst]
          exact wf_store_update _ (eventKey data) r' hwf1 hrw
        refine ⟨hwf2, ?_, ?_, ?_⟩
        · intro s hmem
          rw [hs] at hmem
          simp only [List.mem_cons, List.not_mem_nil, or_false] at hmem
          rcases hmem with hmem | hmem
          · rw [hmem]; exact hwf1
          · rw [hmem]; exact hwf2
        · intro k r0 hk0
          have hkne : k ≠ eventKey data := by
            intro hEq
            rw [hEq, hsk] at hk0
            cases hk0
          have hfin : (he_claimed env store (eventKey data) (eventBucket data)
              (eventObject data)).store k = some r0 := by
            rw [hst, Store.update_other _ _ _ _ hkne, Store.update_other _ _ _ _ hkne]
            exact hk0
          refine ⟨hfin, ?_⟩
          intro s hmem
          rw [hs] at hmem
          simp only [List.mem_cons, List.not_mem_nil, or_false] at hmem
          rcases hmem with hmem | hmem
          · rw [hmem, Store.update_other _ _ _ _ hkne]; exact hk0
          · rw [hmem]; exact hfin
        · intro k hk0
          by_cases hke : k = eventKey data
          · subst hke
            exact Or.inr ⟨r', by rw [hst, Store.update_self], hrp, hs⟩
          · refine Or.inl ?_
            rw [hst, Store.update_other _ _ _ _ hke, Store.update_other _ _ _ _ hke]
            exact hk0
      · dsimp only
        obtain ⟨hcs, hcst, hctr⟩ := mkCachedOut_resp_store store (eventKey data) r
        refine ⟨by rw [hcs]; exact hwf, ?_, ?_, ?_⟩
        · intro s hmem
          rw [hcst] at hmem
          simp only [List.mem_cons, List.not_mem_nil, or_false] at hmem
          rw [hmem]
          exact hwf
        · intro k r0 hk0
          refine ⟨by rw [hcs]; exact hk0, ?_⟩
          intro s hmem
          rw [hcst] at hmem
          simp only [List.mem_cons, List.not_mem_nil, or_false] at hmem
          rw [hmem]
          exact hk0
        · intro k hk0
          exact Or.inl (by rw [hcs]; exact hk0)

/-- Witness for `c8_ledger_lifecycle`: from the empty store, the
all-success call keeps every record well-formed. -/
theorem c8_witness :
    WFStore emptyStore ∧
      WFStore (handle_event okEnv (.ok pDataFull) emptyStore).store := by
  have hwf : WFStore emptyStore := by
    intro k r h
    simp [emptyStore] at h
  exact ⟨hwf, (c8_ledger_lifecycle okEnv (.ok pDataFull) emptyStore hwf).1⟩

/-! ## Claim C9 — thumbnail dimensions -/

theorem thumb_eval_50 : thumbnail_size 50 50 = (50, 50) := by
  simp [thumbnail_size]

theorem thumb_eval_4000 : thumbnail_size 4000 2000 = (100, 50) := by
  simp only [thumbnail_size, roundAspect]
  norm_num [show Int.toNat 50 = 50 from rfl]

theorem thumb_eval_150 : thumbnail_size 150 100 = (100, 67) := by
  have hceil : (⌈(200:ℚ)/3⌉ : ℤ) = 67 := by
    rw [Int.ceil_eq_iff] <;> norm_num
  have hkey : ¬ (|(1:ℚ)/66| ≤ |(1:ℚ)/134|) := by
    rw [abs_of_pos (show (0:ℚ) < 1/66 by norm_num),
        abs_of_pos (show (0:ℚ) < 1/134 by norm_num)]
    norm_num
  simp only [thumbnail_size, roundAspect]
  norm_num [hceil, show Int.toNat 66 = 66 from rfl, show Int.toNat 67 = 67 from rfl, hkey]

theorem roundAspect_cases (number : ℚ) (key : ℕ → ℚ) :
    roundAspect number key = max (⌊number⌋).toNat 1 ∨
      roundAspect number key = max (⌈number⌉).toNat 1 := by
  unfold roundAspect
  dsimp only
  split
  · exact Or.inl rfl
  · exact Or.inr rfl

theorem roundAspect_le (number : ℚ) (key : ℕ → ℚ) (n : ℕ)
    (hn : 1 ≤ n) (hc : (⌈number⌉).toNat ≤ n) : roundAspect number key ≤ n := by
  have hf : (⌊number⌋).toNat ≤ (⌈number⌉).toNat :=
    Int.toNat_le_toNat (Int.floor_le_ceil number)
  unfold roundAspect
  dsimp only
  split
  · exact max_le (le_trans hf hc) hn
  · exact max_le hc hn

/-- Claim C9, counterexample: a 150×100 source yields a 100×67
thumbnail, but scaling both dimensions by the exact factor
`min(100/150, 100/100, 1) = 2/3` would require a height of `200/3`,
which 67 is not — the shorter side is rounded, not scaled exactly. -/
theorem c9_counterexample :
    thumbnail_size 150 100 = (100, 67) ∧
      ¬ (((thumbnail_size 150 100).2 : ℚ) =
        min (min ((100:ℚ)/150) ((100:ℚ)/100)) 1 * 100) := by
  refine ⟨thumb_eval_150, ?_⟩
  rw [thumb_eval_150]
  rw [show min (min ((100:ℚ)/150) ((100:ℚ)/100)) 1 = 2/3 by
    rw [min_def, min_def] <;> norm_num]
  norm_num

/-- Claim C9 (amended): the thumbnail transform fits the image in the
100×100 box preserving the aspect ratio up to integer rounding of the
shorter side: a source already inside the box is returned unchanged and
no dimension is ever upscaled; otherwise the longer side is scaled to
exactly 100 and the other side becomes the floor or the ceiling (at
least 1) of the exact same-factor value `min(100/w, 100/h) · dim`; a
4000×2000 source yields 100×50 and a 50×50 source stays 50×50. -/
theorem c9_amended (w h : ℕ) (hw : 1 ≤ w) (hh : 1 ≤ h) :
    ((w ≤ 100 ∧ h ≤ 100) → thumbnail_size w h = (w, h)) ∧
      (thumbnail_size w h).1 ≤ w ∧ (thumbnail_size w h).2 ≤ h ∧
      (¬ (w ≤ 100 ∧ h ≤ 100) → w ≤ h →
        (thumbnail_size w h).2 = 100 ∧
          ((thumbnail_size w h).1 = max (⌊100 * (w:ℚ) / (h:ℚ)⌋).toNat 1 ∨
            (thumbnail_size w h).1 = max (⌈100 * (w:ℚ) / (h:ℚ)⌉).toNat 1)) ∧
      (¬ (w ≤ 100 ∧ h ≤ 100) → h < w →
        (thumbnail_size w h).1 = 100 ∧
          ((thumbnail_size w h).2 = max (⌊100 * (h:ℚ) / (w:ℚ)⌋).toNat 1 ∨
            (thumbnail_size w h).2 = max (⌈100 * (h:ℚ) / (w:ℚ)⌉).toNat 1)) ∧
      thumbnail_size 4000 2000 = (100, 50) ∧ thumbnail_size 50 50 = (50, 50) := by
  have hhq : (0:ℚ) < (h:ℚ) := by exact_mod_cast Nat.lt_of_lt_of_le Nat.zero_lt_one hh
  have hwq : (0:ℚ) < (w:ℚ) := by exact_mod_cast Nat.lt_of_lt_of_le Nat.zero_lt_one hw
  by_cases hfit : w ≤ 100 ∧ h ≤ 100
  · have hts : thumbnail_size w h = (w, h) := by
      rw [thumbnail_size, if_pos hfit]
    rw [hts]
    exact ⟨fun _ => rfl, le_refl w, le_refl h, fun hc _ => absurd hfit hc,
      fun hc _ => absurd hfit hc, thumb_eval_4000, thumb_eval_50⟩
  · by_cases hwh : w ≤ h
    · have haspect : ((w:ℚ) / (h:ℚ)) ≤ 1 := by
        rw [div_le_one hhq]
        exact_mod_cast hwh
      have hts : thumbnail_size w h =
          (roundAspect (100 * ((w:ℚ) / (h:ℚ)))
            (fun n => |(w:ℚ) / (h:ℚ) - (n:ℚ) / 100|), 100) := by
        simp only [thumbnail_size]
        rw [if_neg hfit, if_pos haspect]
      have h100 : 100 < h := by
        rcases not_and_or.mp hfit with hx | hx <;> omega
      have hqle : 100 * ((w:ℚ) / (h:ℚ)) ≤ (w:ℚ) := by
        rw [← mul_div_assoc, div_le_iff hhq, mul_comm]
        apply mul_le_mul_of_nonneg_left _ (le_of_lt hwq)
        exact_mod_cast le_of_lt h100
      have hcle : (⌈100 * ((w:ℚ) / (h:ℚ))⌉).toNat ≤ w := by
        have hcint : ⌈100 * ((w:ℚ) / (h:ℚ))⌉ ≤ (w:ℤ) :=
          Int.ceil_le.mpr (by exact_mod_cast hqle)
        calc (⌈100 * ((w:ℚ) / (h:ℚ))⌉).toNat ≤ ((w:ℤ)).toNat :=
          Int.toNat_le_toNat hcint
        _ = w := Int.toNat_natCast w
      have hfst : (thumbnail_size w h).1 = roundAspect (100 * ((w:ℚ) / (h:ℚ)))
          (fun n => |(w:ℚ) / (h:ℚ) - (n:ℚ) / 100|) := by rw [hts]
      have hsnd : (thumbnail_size w h).2 = 100 := by rw [hts]
      refine ⟨fun hc => absurd hc hfit, ?_, by rw [hsnd]; omega,
        fun _ _ => ⟨hsnd, ?_⟩, fun _ hlt => absurd hwh (by omega),
        thumb_eval_4000, thumb_eval_50⟩
      · rw [hfst]
        exact roundAspect_le _ _ w hw hcle
      · rw [hfst]
        rcases roundAspect_cases (100 * ((w:ℚ) / (h:ℚ)))
          (fun n => |(w:ℚ) / (h:ℚ) - (n:ℚ) / 100|) with hc | hc
        · rw [mul_div_assoc]
          exact Or.inl hc
        · rw [mul_div_assoc]
          exact Or.inr hc
    · have haspect : ¬ (((w:ℚ) / (h:ℚ)) ≤ 1) := by
        rw [div_le_one hhq]
        intro hcon
        exact hwh (by exact_mod_cast hcon)
      have hts : thumbnail_size w h =
          (100, roundAspect (100 / ((w:ℚ) / (h:ℚ)))
            (fun n => if n = 0 then 0 else |(w:ℚ) / (h:ℚ) - 100 / (n:ℚ)|)) := by
        simp only [thumbnail_size]
        rw [if_neg hfit, if_neg haspect]
      have hdiv : (100:ℚ) / ((w:ℚ) / (h:ℚ)) = 100 * (h:ℚ) / (w:ℚ) :=
        div_div_eq_mul_div 100 (w:ℚ) (h:ℚ)
      have h100 : 100 < w := by
        rcases not_and_or.mp hfit with hx | hx <;> omega
      have hqle : (100:ℚ) / ((w:ℚ) / (h:ℚ)) ≤ (h:ℚ) := by
        rw [hdiv, div_le_iff hwq, mul_comm]
        apply mul_le_mul_of_nonneg_left _ (le_of_lt hhq)
        exact_mod_cast le_of_lt h100
      have hcle : (⌈(100:ℚ) / ((w:ℚ) / (h:ℚ))⌉).toNat ≤ h := by
        have hcint : ⌈(100:ℚ) / ((w:ℚ) / (h:ℚ))⌉ ≤ (h:ℤ) :=
          Int.ceil_le.mpr (by exact_mod_cast hqle)
        calc (⌈(100:ℚ) / ((w:ℚ) / (h:ℚ))⌉).toNat ≤ ((h:ℤ)).toNat :=
          Int.toNat_le_toNat hcint
        _ = h := Int.toNat_natCast h
      have hfst : (thumbnail_size w h).1 = 100 := by rw [hts]
      have hsnd : (thumbnail_size w h).2 = roundAspect ((100:ℚ) / ((w:ℚ) / (h:ℚ)))
          (fun n => if n = 0 then 0 else |(w:ℚ) / (h:ℚ) - 100 / (n:ℚ)|) := by rw [hts]
      refine ⟨fun hc => absurd hc hfit, by rw [hfst]; omega, ?_,
        fun _ hle => absurd hle hwh, fun _ _ => ⟨hfst, ?_⟩,
        thumb_eval_4000, thumb_eval_50⟩
      · rw [hsnd]
        exact roundAspect_le _ _ h hh hcle
      · rw [hsnd]
        rcases roundAspect_cases ((100:ℚ) / ((w:ℚ) / (h:ℚ)))
          (fun n => if n = 0 then 0 else |(w:ℚ) / (h:ℚ) - 100 / (n:ℚ)|) with hc | hc
        · rw [← hdiv]
          exact Or.inl hc
        · rw [← hdiv]
          exact Or.inr hc

/-- Witness for `c9_amended` at the 4000×2000 and 50×50 sources. -/
theorem c9_witness :
    (1 ≤ 4000 ∧ 1 ≤ 2000 ∧ 1 ≤ 50) ∧
      thumbnail_size 4000 2000 = (100, 50) ∧ thumbnail_size 50 50 = (50, 50) ∧
      (50 ≤ 100 ∧ 50 ≤ 100 → thumbnail_size 50 50 = (50, 50)) :=
  ⟨⟨by decide, by decide, by decide⟩,
    (c9_amended 4000 2000 (by decide) (by decide)).2.2.2.2.2.1,
    (c9_amended 4000 2000 (by decide) (by decide)).2.2.2.2.2.2,
    (c9_amended 50 50 (by decide) (by decide)).1⟩

end ImgProc
